import Mathlib

/-!
Shallow embedding of the StudyBuddy admin moderation service
(`com.studybuddy.service.AdminService`) and the parts of the `User`
model it relies on.

The repository contains two revisions of `AdminService`:
the later one (JSON metadata via `ObjectMapper`, leaves `isActive`
untouched on suspend/unsuspend/unban) is embedded in namespace
`AdminService`; the earlier revision (ad hoc metadata string,
auto-re-enables `isActive` on unsuspend/unban, disables it on suspend)
is embedded in namespace `AdminServiceV1`.

Timestamps (`LocalDateTime`) are modelled as `Int` epoch seconds;
`LocalDateTime.minusDays d` on a zoneless timestamp subtracts exactly
`d * 86400` seconds and `isAfter` is strict order, so comparisons are
preserved.  Per the design notes the ambient security-context caller is
modelled as an explicit `adminId` argument.  Each Java method runs in a
single transaction whose every `throw` happens before any mutation, so
an operation is a total function returning `Except AdminError (result,
new state)`: an error means the state is unchanged (rollback).
-/

/-- User roles, from the repository's `Role` enum. -/
inductive Role where
  | USER
  | EXPERT
  | ADMIN
  deriving DecidableEq, Repr

/-- Java Enum.name() for Role, as used in role-change audit metadata. -/
def Role.name : Role → String
  | .USER => "USER"
  | .EXPERT => "EXPERT"
  | .ADMIN => "ADMIN"

/-- The moderation-relevant fields of the `User` entity. -/
structure User where
  id : Nat
  username : String
  email : String
  role : Role
  isActive : Bool
  suspendedUntil : Option Int
  suspensionReason : Option String
  bannedAt : Option Int
  banReason : Option String
  isDeleted : Bool
  deletedAt : Option Int
  deriving DecidableEq, Repr

/-- Modelled from the spec: the body of the `User.isBanned()` helper is not in
the provided sources; the spec defines a user as banned iff `bannedAt` is set. -/
def User.isBanned (u : User) : Bool :=
  u.bannedAt ≠ none

/-- Modelled from the spec: the body of the `User.isSuspended()` helper is not
in the provided sources; the spec defines a user as suspended iff
`suspendedUntil` is set and in the future. -/
def User.isSuspended (now : Int) (u : User) : Bool :=
  match u.suspendedUntil with
  | none => false
  | some t => now < t

/-- The `AdminAuditLog` entity.  The metadata map is kept as an association
list; its string serialization (JSON in the later revision, `toString` in the
earlier) is representation-only and never read back by the component. -/
structure AdminAuditLog where
  adminUserId : Nat
  actionType : String
  targetType : String
  targetId : Nat
  reason : String
  metadata : Option (List (String × String))
  deriving DecidableEq, Repr

/-- Combined state of the two persistent collaborators: the user store and
the append-only audit-log sink. -/
structure AdminState where
  users : List User
  auditLog : List AdminAuditLog
  deriving DecidableEq, Repr

/-- Error taxonomy of the moderation component; in Java each kind is an
`IllegalArgumentException` or `RuntimeException` with a distinct message. -/
inductive AdminError where
  | notFound
  | selfModification
  | selfDemotion
  | lastAdmin
  | invalidState
  | tooSoon
  | stillBanned
  | stillSuspended
  deriving DecidableEq, Repr

/-- The user store's `findById`. -/
def findById (users : List User) (userId : Nat) : Option User :=
  users.find? (fun u => u.id == userId)

/-- JPA `save`: replace the stored record with the given id. -/
def saveUser (users : List User) (u : User) : List User :=
  users.map (fun v => if v.id == u.id then u else v)

/-- JPA `delete`: remove the record with the given id. -/
def deleteUser (users : List User) (u : User) : List User :=
  users.filter (fun v => !(v.id == u.id))

/-- LocalDateTime.minusDays on a zoneless timestamp, in epoch seconds. -/
def minusDays (t : Int) (d : Int) : Int :=
  t - d * 86400

namespace AdminService

/-- The filter of the last-admin count in the later revision:
role is ADMIN, not soft-deleted, and bannedAt is null. -/
def isFunctionalAdmin (u : User) : Bool :=
  u.role = Role.ADMIN && !u.isDeleted && u.bannedAt == none

/-- The fresh functional-admin count computed by `checkLastAdmin`. -/
def adminCount (users : List User) : Nat :=
  (users.filter isFunctionalAdmin).length

/-- AdminService.checkSelfModification: reject operations where the acting
admin targets their own account. -/
def checkSelfModification (adminId targetUserId : Nat) : Except AdminError Unit :=
  if adminId == targetUserId then .error .selfModification else .ok ()

/-- AdminService.checkLastAdmin: if the target is an ADMIN and at most one
functional admin exists, reject the operation. -/
def checkLastAdmin (users : List User) (targetUserId : Nat) : Except AdminError Unit :=
  match findById users targetUserId with
  | none => .error .notFound
  | some targetUser =>
      if targetUser.role = Role.ADMIN then
        if adminCount users ≤ 1 then .error .lastAdmin else .ok ()
      else .ok ()

/-- AdminService.logAction: append one audit entry; the metadata field is set
only when the map is non-null and non-empty. -/
def logAction (st : AdminState) (adminId : Nat) (actionType targetType : String)
    (targetId : Nat) (reason : String) (metadata : Option (List (String × String))) :
    AdminState :=
  let entry : AdminAuditLog :=
    { adminUserId := adminId
      actionType := actionType
      targetType := targetType
      targetId := targetId
      reason := reason
      metadata :=
        match metadata with
        | none => none
        | some m => if m.isEmpty then none else some m }
  { st with auditLog := st.auditLog ++ [entry] }

/-- AdminService.suspendUser, later revision: set the suspension fields, do
not modify isActive, log SUSPEND. -/
def suspendUser (st : AdminState) (adminId userId : Nat) (suspendedUntil : Int)
    (reason : String) : Except AdminError (User × AdminState) := do
  checkSelfModification adminId userId
  match findById st.users userId with
  | none => .error .notFound
  | some user =>
      let savedUser := { user with
        suspendedUntil := some suspendedUntil
        suspensionReason := some reason }
      let st1 := { st with users := saveUser st.users savedUser }
      let st2 := logAction st1 adminId "SUSPEND" "USER" userId reason
        (some [("suspendedUntil", toString suspendedUntil)])
      .ok (savedUser, st2)

/-- AdminService.banUser: after the self and last-admin checks, set bannedAt
to now, set banReason, clear isActive, log BAN. -/
def banUser (st : AdminState) (adminId : Nat) (now : Int) (userId : Nat)
    (reason : String) : Except AdminError (User × AdminState) := do
  checkSelfModification adminId userId
  checkLastAdmin st.users userId
  match findById st.users userId with
  | none => .error .notFound
  | some user =>
      let savedUser := { user with
        bannedAt := some now
        banReason := some reason
        isActive := false }
      let st1 := { st with users := saveUser st.users savedUser }
      let st2 := logAction st1 adminId "BAN" "USER" userId reason none
      .ok (savedUser, st2)

/-- AdminService.unsuspendUser, later revision: clear the suspension fields
only; isActive is not modified. -/
def unsuspendUser (st : AdminState) (adminId userId : Nat) (reason : String) :
    Except AdminError (User × AdminState) :=
  match findById st.users userId with
  | none => .error .notFound
  | some user =>
      let savedUser := { user with
        suspendedUntil := none
        suspensionReason := none }
      let st1 := { st with users := saveUser st.users savedUser }
      let st2 := logAction st1 adminId "UNSUSPEND" "USER" userId reason none
      .ok (savedUser, st2)

/-- AdminService.unbanUser, later revision: clear the ban fields only;
isActive is not modified. -/
def unbanUser (st : AdminState) (adminId userId : Nat) (reason : String) :
    Except AdminError (User × AdminState) :=
  match findById st.users userId with
  | none => .error .notFound
  | some user =>
      let savedUser := { user with
        bannedAt := none
        banReason := none }
      let st1 := { st with users := saveUser st.users savedUser }
      let st2 := logAction st1 adminId "UNBAN" "USER" userId reason none
      .ok (savedUser, st2)

/-- AdminService.softDeleteUser: after the self and last-admin checks, mark
deleted with deletedAt = now, clear isActive, log SOFT_DELETE. -/
def softDeleteUser (st : AdminState) (adminId : Nat) (now : Int) (userId : Nat)
    (reason : String) : Except AdminError (User × AdminState) := do
  checkSelfModification adminId userId
  checkLastAdmin st.users userId
  match findById st.users userId with
  | none => .error .notFound
  | some user =>
      let savedUser := { user with
        isDeleted := true
        deletedAt := some now
        isActive := false }
      let st1 := { st with users := saveUser st.users savedUser }
      let st2 := logAction st1 adminId "SOFT_DELETE" "USER" userId reason none
      .ok (savedUser, st2)

/-- AdminService.restoreUser: requires isDeleted; clears the deletion fields
and re-enables login only when the user is neither banned nor suspended. -/
def restoreUser (st : AdminState) (adminId : Nat) (now : Int) (userId : Nat)
    (reason : String) : Except AdminError (User × AdminState) :=
  match findById st.users userId with
  | none => .error .notFound
  | some user =>
      if !user.isDeleted then .error .invalidState
      else
        let cleared := { user with isDeleted := false, deletedAt := none }
        let savedUser :=
          if !user.isBanned && !user.isSuspended now then
            { cleared with isActive := true }
          else cleared
        let st1 := { st with users := saveUser st.users savedUser }
        let st2 := logAction st1 adminId "RESTORE" "USER" userId reason none
        .ok (savedUser, st2)

/-- AdminService.permanentDeleteUser: after the self and last-admin checks,
requires isDeleted; rejects with TooSoon when deletedAt is non-null and
strictly after now minus 30 days; otherwise logs PERMANENT_DELETE and
hard-removes the record. -/
def permanentDeleteUser (st : AdminState) (adminId : Nat) (now : Int)
    (userId : Nat) (reason : String) : Except AdminError (Unit × AdminState) := do
  checkSelfModification adminId userId
  checkLastAdmin st.users userId
  match findById st.users userId with
  | none => .error .notFound
  | some user =>
      if !user.isDeleted then .error .invalidState
      else
        let thirtyDaysAgo := minusDays now 30
        let blocked :=
          match user.deletedAt with
          | none => false
          | some d => thirtyDaysAgo < d
        if blocked then .error .tooSoon
        else
          let st1 := logAction st adminId "PERMANENT_DELETE" "USER" userId reason none
          let st2 := { st1 with users := deleteUser st1.users user }
          .ok ((), st2)

/-- AdminService.updateUserRole: rejects a self-demotion away from ADMIN;
runs the last-admin check when moving a user away from ADMIN; otherwise sets
the role and logs ROLE_CHANGE with old/new metadata. -/
def updateUserRole (st : AdminState) (adminId userId : Nat) (newRole : Role)
    (reason : String) : Except AdminError (User × AdminState) :=
  match findById st.users userId with
  | none => .error .notFound
  | some user =>
      if adminId == userId && user.role = Role.ADMIN && newRole ≠ Role.ADMIN then
        .error .selfDemotion
      else do
        if user.role = Role.ADMIN && newRole ≠ Role.ADMIN then
          checkLastAdmin st.users userId
        let oldRole := user.role
        let savedUser := { user with role := newRole }
        let st1 := { st with users := saveUser st.users savedUser }
        let st2 := logAction st1 adminId "ROLE_CHANGE" "USER" userId reason
          (some [("oldRole", oldRole.name), ("newRole", newRole.name)])
        .ok (savedUser, st2)

/-- AdminService.disableLogin: after the self check, unconditionally clear
isActive and log DISABLE_LOGIN. -/
def disableLogin (st : AdminState) (adminId userId : Nat) (reason : String) :
    Except AdminError (User × AdminState) := do
  checkSelfModification adminId userId
  match findById st.users userId with
  | none => .error .notFound
  | some user =>
      let savedUser := { user with isActive := false }
      let st1 := { st with users := saveUser st.users savedUser }
      let st2 := logAction st1 adminId "DISABLE_LOGIN" "USER" userId reason none
      .ok (savedUser, st2)

/-- AdminService.enableLogin, later revision: rejects while banned, rejects
while suspended, otherwise sets isActive and logs ENABLE_LOGIN. -/
def enableLogin (st : AdminState) (adminId : Nat) (now : Int) (userId : Nat)
    (reason : String) : Except AdminError (User × AdminState) :=
  match findById st.users userId with
  | none => .error .notFound
  | some user =>
      if user.isBanned then .error .stillBanned
      else if user.isSuspended now then .error .stillSuspended
      else
        let savedUser := { user with isActive := true }
        let st1 := { st with users := saveUser st.users savedUser }
        let st2 := logAction st1 adminId "ENABLE_LOGIN" "USER" userId reason none
        .ok (savedUser, st2)

end AdminService

namespace AdminServiceV1

/-- Earlier revision of AdminService.unsuspendUser: clears the suspension
fields, then re-enables login when the user is not banned. -/
def unsuspendUser (st : AdminState) (adminId userId : Nat) (reason : String) :
    Except AdminError (User × AdminState) :=
  match findById st.users userId with
  | none => .error .notFound
  | some user =>
      let cleared := { user with suspendedUntil := none, suspensionReason := none }
      let savedUser :=
        if !user.isBanned then { cleared with isActive := true } else cleared
      let st1 := { st with users := saveUser st.users savedUser }
      let st2 := AdminService.logAction st1 adminId "UNSUSPEND" "USER" userId reason none
      .ok (savedUser, st2)

/-- Earlier revision of AdminService.unbanUser: clears the ban fields, then
re-enables login when the user is not suspended. -/
def unbanUser (st : AdminState) (adminId : Nat) (now : Int) (userId : Nat)
    (reason : String) : Except AdminError (User × AdminState) :=
  match findById st.users userId with
  | none => .error .notFound
  | some user =>
      let cleared := { user with bannedAt := none, banReason := none }
      let savedUser :=
        if !user.isSuspended now then { cleared with isActive := true } else cleared
      let st1 := { st with users := saveUser st.users savedUser }
      let st2 := AdminService.logAction st1 adminId "UNBAN" "USER" userId reason none
      .ok (savedUser, st2)

end AdminServiceV1

/-- Transactional semantics: the state after an operation is the returned one
on success and the original one on failure (rollback). -/
def stateAfter {α : Type} (r : Except AdminError (α × AdminState))
    (st : AdminState) : AdminState :=
  match r with
  | .ok (_, s) => s
  | .error _ => st

theorem findById_saveUser {users : List User} {userId : Nat} {u v : User}
    (hfind : findById users userId = some u) (hid : v.id = u.id) :
    findById (saveUser users v) userId = some v := by
  have hu : (u.id == userId) = true :=
    @List.find?_some User (fun w => w.id == userId) u users hfind
  have hv : (v.id == userId) = true := by
    rw [beq_iff_eq] at hu ⊢
    rw [hid, hu]
  induction users with
  | nil => simp [findById] at hfind
  | cons w ws ih =>
      simp only [findById, saveUser, List.map_cons] at hfind ⊢
      by_cases hw : (w.id == userId) = true
      · have hwv : (w.id == v.id) = true := by
          rw [beq_iff_eq] at hw hv ⊢
          rw [hw, hv]
        rw [if_pos hwv]
        simp [List.find?_cons, hv]
      · have hwb : (w.id == userId) = false := by simpa using hw
        simp only [List.find?_cons, hwb] at hfind
        have hwv : ¬ ((w.id == v.id) = true) := by
          intro h
          have h1 : w.id = v.id := beq_iff_eq.mp h
          have h2 : v.id = userId := beq_iff_eq.mp hv
          rw [h1, h2] at hwb
          simp at hwb
        rw [if_neg hwv]
        simp only [List.find?_cons, hwb]
        exact ih hfind

theorem findById_deleteUser (users : List User) {userId : Nat} {u : User}
    (hid : u.id = userId) :
    findById (deleteUser users u) userId = none := by
  induction users with
  | nil => rfl
  | cons w ws ih =>
      simp only [findById, deleteUser] at ih ⊢
      by_cases hw : (w.id == u.id) = true
      · rw [List.filter_cons_of_neg]
        · exact ih
        · simp [hw]
      · rw [List.filter_cons_of_pos]
        · rw [List.find?_cons_of_neg]
          · exact ih
          · intro h
            apply hw
            rw [beq_iff_eq] at h ⊢
            rw [h, hid]
        · simpa using hw

theorem findById_id {users : List User} {userId : Nat} {u : User}
    (hfind : findById users userId = some u) : u.id = userId :=
  beq_iff_eq.mp (@List.find?_some User (fun w => w.id == userId) u users hfind)

/-- A sole functional admin, used in concrete scenarios. -/
def aliceAdmin : User :=
  { id := 1, username := "alice", email := "alice@studybuddy.example",
    role := Role.ADMIN, isActive := true, suspendedUntil := none,
    suspensionReason := none, bannedAt := none, banReason := none,
    isDeleted := false, deletedAt := none }

/-- An ordinary active user, used in concrete scenarios. -/
def bobUser : User :=
  { id := 42, username := "bob", email := "bob@studybuddy.example",
    role := Role.USER, isActive := true, suspendedUntil := none,
    suspensionReason := none, bannedAt := none, banReason := none,
    isDeleted := false, deletedAt := none }

/-- A suspended user whose login was independently disabled. -/
def carolSuspended : User :=
  { id := 3, username := "carol", email := "carol@studybuddy.example",
    role := Role.USER, isActive := false, suspendedUntil := some 100,
    suspensionReason := some "spam", bannedAt := none, banReason := none,
    isDeleted := false, deletedAt := none }

/-- A soft-deleted user with the given deletion timestamp. -/
def deletedUser (d : Int) : User :=
  { id := 4, username := "dave", email := "dave@studybuddy.example",
    role := Role.USER, isActive := false, suspendedUntil := none,
    suspensionReason := none, bannedAt := none, banReason := none,
    isDeleted := true, deletedAt := some d }

/-- Store holding only the sole admin. -/
def soleAdminState : AdminState := { users := [aliceAdmin], auditLog := [] }

/-- Store holding the sole admin and one ordinary user. -/
def twoUserState : AdminState := { users := [aliceAdmin, bobUser], auditLog := [] }

/-- Store holding only the suspended, login-disabled user. -/
def carolState : AdminState := { users := [carolSuspended], auditLog := [] }

/-- C6: every self-targeted suspend, ban, soft-delete, permanent-delete and
disable-login call fails with SelfModification before touching any state, and
a self-demotion of an ADMIN account fails with SelfDemotion; in each case the
state is unchanged. -/
theorem selfModification_guard (st : AdminState) (adminId : Nat)
    (now suspendedUntil : Int) (reason : String) (newRole : Role) (u : User) :
    AdminService.suspendUser st adminId adminId suspendedUntil reason =
      .error .selfModification ∧
    AdminService.banUser st adminId now adminId reason = .error .selfModification ∧
    AdminService.softDeleteUser st adminId now adminId reason = .error .selfModification ∧
    AdminService.permanentDeleteUser st adminId now adminId reason =
      .error .selfModification ∧
    AdminService.disableLogin st adminId adminId reason = .error .selfModification ∧
    stateAfter (AdminService.suspendUser st adminId adminId suspendedUntil reason) st = st ∧
    stateAfter (AdminService.banUser st adminId now adminId reason) st = st ∧
    stateAfter (AdminService.softDeleteUser st adminId now adminId reason) st = st ∧
    stateAfter (AdminService.permanentDeleteUser st adminId now adminId reason) st = st ∧
    stateAfter (AdminService.disableLogin st adminId adminId reason) st = st ∧
    (findById st.users adminId = some u → u.role = Role.ADMIN → newRole ≠ Role.ADMIN →
      AdminService.updateUserRole st adminId adminId newRole reason =
        .error .selfDemotion ∧
      stateAfter (AdminService.updateUserRole st adminId adminId newRole reason) st = st) := by
  have hself : AdminService.checkSelfModification adminId adminId =
      .error .selfModification := by
    simp [AdminService.checkSelfModification]
  have h1 : AdminService.suspendUser st adminId adminId suspendedUntil reason =
      .error .selfModification := by
    simp only [AdminService.suspendUser, hself]
    rfl
  have h2 : AdminService.banUser st adminId now adminId reason =
      .error .selfModification := by
    simp only [AdminService.banUser, hself]
    rfl
  have h3 : AdminService.softDeleteUser st adminId now adminId reason =
      .error .selfModification := by
    simp only [AdminService.softDeleteUser, hself]
    rfl
  have h4 : AdminService.permanentDeleteUser st adminId now adminId reason =
      .error .selfModification := by
    simp only [AdminService.permanentDeleteUser, hself]
    rfl
  have h5 : AdminService.disableLogin st adminId adminId reason =
      .error .selfModification := by
    simp only [AdminService.disableLogin, hself]
    rfl
  refine ⟨h1, h2, h3, h4, h5, ?_, ?_, ?_, ?_, ?_, ?_⟩
  · rw [h1]; rfl
  · rw [h2]; rfl
  · rw [h3]; rfl
  · rw [h4]; rfl
  · rw [h5]; rfl
  · intro hfind hrole hnr
    have h6 : AdminService.updateUserRole st adminId adminId newRole reason =
        .error .selfDemotion := by
      simp [AdminService.updateUserRole, hfind, hrole, hnr]
    exact ⟨h6, by rw [h6]; rfl⟩

/-- Witness for C6 at the sole-admin store with the admin targeting itself. -/
theorem selfModification_guard_witness :
    AdminService.banUser soleAdminState 1 0 1 "ban myself" =
      .error .selfModification ∧
    AdminService.updateUserRole soleAdminState 1 1 Role.USER "demote myself" =
      .error .selfDemotion :=
  ⟨(selfModification_guard soleAdminState 1 0 0 "ban myself" Role.USER aliceAdmin).2.1,
   ((selfModification_guard soleAdminState 1 0 0 "demote myself" Role.USER
      aliceAdmin).2.2.2.2.2.2.2.2.2.2 rfl rfl (by decide)).1⟩

/-- C1 counterexample: when the sole functional admin targets itself, banUser
fails with SelfModification, not with the LastAdmin error the claim names,
even though the target is ADMIN and the functional-admin count is at most 1. -/
theorem lastAdmin_guard_self_target_counterexample :
    aliceAdmin.role = Role.ADMIN ∧
    AdminService.adminCount soleAdminState.users ≤ 1 ∧
    AdminService.banUser soleAdminState 1 0 1 "cleanup" =
      .error .selfModification ∧
    AdminService.banUser soleAdminState 1 0 1 "cleanup" ≠
      .error .lastAdmin := by
  have h3 : AdminService.banUser soleAdminState 1 0 1 "cleanup" =
      .error .selfModification := rfl
  refine ⟨rfl, by decide, h3, ?_⟩
  rw [h3]
  intro h
  exact AdminError.noConfusion (Except.error.inj h)

/-- C1 amended: for an acting admin distinct from the target, when the target
has role ADMIN and the count of users with role ADMIN, not soft-deleted and
bannedAt unset is at most 1, each of banUser, softDeleteUser,
permanentDeleteUser and updateUserRole with a non-ADMIN newRole fails with
LastAdmin and leaves the state unchanged. -/
theorem lastAdmin_guard (st : AdminState) (adminId userId : Nat) (now : Int)
    (reason : String) (newRole : Role) (u : User)
    (hne : adminId ≠ userId)
    (hfind : findById st.users userId = some u)
    (hrole : u.role = Role.ADMIN)
    (hcount : AdminService.adminCount st.users ≤ 1)
    (hnr : newRole ≠ Role.ADMIN) :
    AdminService.banUser st adminId now userId reason = .error .lastAdmin ∧
    AdminService.softDeleteUser st adminId now userId reason = .error .lastAdmin ∧
    AdminService.permanentDeleteUser st adminId now userId reason =
      .error .lastAdmin ∧
    AdminService.updateUserRole st adminId userId newRole reason =
      .error .lastAdmin ∧
    stateAfter (AdminService.banUser st adminId now userId reason) st = st ∧
    stateAfter (AdminService.softDeleteUser st adminId now userId reason) st = st ∧
    stateAfter (AdminService.permanentDeleteUser st adminId now userId reason) st = st ∧
    stateAfter (AdminService.updateUserRole st adminId userId newRole reason) st = st := by
  have hbeq : (adminId == userId) = false := by simpa using hne
  have hself : AdminService.checkSelfModification adminId userId = .ok () := by
    simp [AdminService.checkSelfModification, hbeq]
  have hla : AdminService.checkLastAdmin st.users userId = .error .lastAdmin := by
    simp [AdminService.checkLastAdmin, hfind, hrole, hcount]
  have h1 : AdminService.banUser st adminId now userId reason =
      .error .lastAdmin := by
    simp only [AdminService.banUser, hself, hla]
    rfl
  have h2 : AdminService.softDeleteUser st adminId now userId reason =
      .error .lastAdmin := by
    simp only [AdminService.softDeleteUser, hself, hla]
    rfl
  have h3 : AdminService.permanentDeleteUser st adminId now userId reason =
      .error .lastAdmin := by
    simp only [AdminService.permanentDeleteUser, hself, hla]
    rfl
  have h4 : AdminService.updateUserRole st adminId userId newRole reason =
      .error .lastAdmin := by
    simp only [AdminService.updateUserRole, hfind]
    simp only [hbeq, hrole, hnr, hla]
    simp [hnr, hla]
    rfl
  refine ⟨h1, h2, h3, h4, ?_, ?_, ?_, ?_⟩
  · rw [h1]; rfl
  · rw [h2]; rfl
  · rw [h3]; rfl
  · rw [h4]; rfl

/-- Witness for the amended C1: a different admin id banning or demoting the
sole functional admin fails with LastAdmin. -/
theorem lastAdmin_guard_witness :
    AdminService.banUser soleAdminState 2 0 1 "ban sole admin" =
      .error .lastAdmin ∧
    AdminService.updateUserRole soleAdminState 2 1 Role.USER "demote sole admin" =
      .error .lastAdmin := by
  have hb := lastAdmin_guard soleAdminState 2 1 0 "ban sole admin" Role.USER
    aliceAdmin (by decide) rfl rfl (by decide) (by decide)
  have hr := lastAdmin_guard soleAdminState 2 1 0 "demote sole admin" Role.USER
    aliceAdmin (by decide) rfl rfl (by decide) (by decide)
  exact ⟨hb.1, hr.2.2.2.1⟩

/-- C2: suspendUser on an existing user distinct from the acting admin sets
suspendedUntil and suspensionReason to the given values and no other field;
the stored record afterwards is exactly that update of the old record. -/
theorem suspendUser_frame (st : AdminState) (adminId userId : Nat)
    (suspendedUntil : Int) (reason : String) (u : User)
    (hne : adminId ≠ userId)
    (hfind : findById st.users userId = some u) :
    ∃ st2,
      AdminService.suspendUser st adminId userId suspendedUntil reason =
        .ok ({ u with suspendedUntil := some suspendedUntil,
                      suspensionReason := some reason }, st2) ∧
      findById st2.users userId =
        some { u with suspendedUntil := some suspendedUntil,
                      suspensionReason := some reason } := by
  have hbeq : (adminId == userId) = false := by simpa using hne
  have hself : AdminService.checkSelfModification adminId userId = .ok () := by
    simp [AdminService.checkSelfModification, hbeq]
  simp only [AdminService.suspendUser, hself, hfind]
  exact ⟨_, rfl, findById_saveUser hfind rfl⟩

/-- Witness for C2: admin 1 suspends user 42 for a week. -/
theorem suspendUser_frame_witness :
    ∃ st2,
      AdminService.suspendUser twoUserState 1 42 604800 "spam" =
        .ok ({ bobUser with suspendedUntil := some 604800,
                            suspensionReason := some "spam" }, st2) ∧
      findById st2.users 42 =
        some { bobUser with suspendedUntil := some 604800,
                            suspensionReason := some "spam" } :=
  suspendUser_frame twoUserState 1 42 604800 "spam" bobUser (by decide) rfl

theorem except_bind_error {ε α β : Type} (e : ε) (f : α → Except ε β) :
    (Except.error e >>= f) = Except.error e := rfl

theorem except_bind_ok {ε α β : Type} (a : α) (f : α → Except ε β) :
    (Except.ok a >>= f) = f a := rfl

theorem logAction_users (st : AdminState) (adminId : Nat) (actionType targetType : String)
    (targetId : Nat) (reason : String) (metadata : Option (List (String × String))) :
    (AdminService.logAction st adminId actionType targetType targetId reason metadata).users =
      st.users := rfl

/-- C3: unbanUser (later revision) clears bannedAt and banReason and touches
no other field, so a user banned via banUser and independently disabled via
disableLogin stays disabled (isActive false) after unbanUser. -/
theorem unbanUser_preserves_isActive (st : AdminState) (adminId : Nat) (now : Int)
    (userId : Nat) (banR disR unbanR : String) (u : User)
    (hne : adminId ≠ userId)
    (hfind : findById st.users userId = some u)
    (hguard : ¬(u.role = Role.ADMIN ∧ AdminService.adminCount st.users ≤ 1)) :
    (∃ st2, AdminService.unbanUser st adminId userId unbanR =
        .ok ({ u with bannedAt := none, banReason := none }, st2)) ∧
    ∃ u1 st1 u2 st2 u3 st3,
      AdminService.banUser st adminId now userId banR = .ok (u1, st1) ∧
      AdminService.disableLogin st1 adminId userId disR = .ok (u2, st2) ∧
      AdminService.unbanUser st2 adminId userId unbanR = .ok (u3, st3) ∧
      u3.bannedAt = none ∧ u3.banReason = none ∧ u3.isActive = false := by
  have hbeq : (adminId == userId) = false := by simpa using hne
  have hself : AdminService.checkSelfModification adminId userId = .ok () := by
    simp [AdminService.checkSelfModification, hbeq]
  have hla : AdminService.checkLastAdmin st.users userId = .ok () := by
    simp only [AdminService.checkLastAdmin, hfind]
    by_cases hr : u.role = Role.ADMIN
    · have hc : ¬ AdminService.adminCount st.users ≤ 1 := fun hc => hguard ⟨hr, hc⟩
      simp [hr, hc]
    · simp [hr]
  refine ⟨?_, ?_⟩
  · simp only [AdminService.unbanUser, hfind]
    exact ⟨_, rfl⟩
  · have s1 : ∃ st1, AdminService.banUser st adminId now userId banR =
        .ok ({ u with bannedAt := some now, banReason := some banR,
                      isActive := false }, st1) ∧
        st1.users = saveUser st.users
          { u with bannedAt := some now, banReason := some banR,
                   isActive := false } := by
      simp only [AdminService.banUser, hself, hla, hfind]
      exact ⟨_, rfl, rfl⟩
    obtain ⟨st1, h1, hu1⟩ := s1
    have hfind1 : findById st1.users userId =
        some { u with bannedAt := some now, banReason := some banR,
                      isActive := false } := by
      rw [hu1]
      exact findById_saveUser hfind rfl
    have s2 : ∃ st2, AdminService.disableLogin st1 adminId userId disR =
        .ok ({ u with bannedAt := some now, banReason := some banR,
                      isActive := false }, st2) ∧
        st2.users = saveUser st1.users
          { u with bannedAt := some now, banReason := some banR,
                   isActive := false } := by
      simp only [AdminService.disableLogin, hself, hfind1]
      exact ⟨_, rfl, rfl⟩
    obtain ⟨st2, h2, hu2⟩ := s2
    have hfind2 : findById st2.users userId =
        some { u with bannedAt := some now, banReason := some banR,
                      isActive := false } := by
      rw [hu2]
      exact findById_saveUser hfind1 rfl
    have s3 : ∃ st3, AdminService.unbanUser st2 adminId userId unbanR =
        .ok ({ u with bannedAt := none, banReason := none,
                      isActive := false }, st3) := by
      simp only [AdminService.unbanUser, hfind2]
      exact ⟨_, rfl⟩
    obtain ⟨st3, h3⟩ := s3
    exact ⟨_, st1, _, st2, _, st3, h1, h2, h3, rfl, rfl, rfl⟩

/-- Witness for C3: ban user 42, disable their login, then unban: the ban
fields are cleared but isActive stays false. -/
theorem unbanUser_preserves_isActive_witness :
    ∃ u1 st1 u2 st2 u3 st3,
      AdminService.banUser twoUserState 1 50 42 "abuse" = .ok (u1, st1) ∧
      AdminService.disableLogin st1 1 42 "manual disable" = .ok (u2, st2) ∧
      AdminService.unbanUser st2 1 42 "appeal accepted" = .ok (u3, st3) ∧
      u3.bannedAt = none ∧ u3.banReason = none ∧ u3.isActive = false :=
  (unbanUser_preserves_isActive twoUserState 1 50 42 "abuse" "manual disable"
    "appeal accepted" bobUser (by decide) rfl (by decide)).2

/-- C4: the two AdminService revisions are not behaviorally equivalent: on a
non-banned user with isActive false, the earlier revision's unsuspendUser
returns a user with isActive true while the later one leaves isActive false;
in general the later revision never modifies isActive on unsuspend/unban,
while the earlier one re-enables it whenever no other restriction blocks. -/
theorem unsuspend_revisions_not_equivalent :
    (∃ p, AdminServiceV1.unsuspendUser carolState 9 3 "lift" = .ok p ∧
      p.1.isActive = true) ∧
    (∃ p, AdminService.unsuspendUser carolState 9 3 "lift" = .ok p ∧
      p.1.isActive = false) ∧
    (∀ st adminId userId reason u, findById st.users userId = some u →
      ∃ st2, AdminService.unsuspendUser st adminId userId reason =
        .ok ({ u with suspendedUntil := none, suspensionReason := none }, st2)) ∧
    (∀ st adminId userId reason u, findById st.users userId = some u →
      ∃ st2, AdminService.unbanUser st adminId userId reason =
        .ok ({ u with bannedAt := none, banReason := none }, st2)) ∧
    (∀ st adminId userId reason u, findById st.users userId = some u →
      u.isBanned = false →
      ∃ st2 v, AdminServiceV1.unsuspendUser st adminId userId reason =
        .ok (v, st2) ∧ v.isActive = true) ∧
    (∀ st adminId now userId reason u, findById st.users userId = some u →
      u.isSuspended now = false →
      ∃ st2 v, AdminServiceV1.unbanUser st adminId now userId reason =
        .ok (v, st2) ∧ v.isActive = true) := by
  refine ⟨⟨_, rfl, rfl⟩, ⟨_, rfl, rfl⟩, ?_, ?_, ?_, ?_⟩
  · intro st adminId userId reason u hfind
    simp only [AdminService.unsuspendUser, hfind]
    exact ⟨_, rfl⟩
  · intro st adminId userId reason u hfind
    simp only [AdminService.unbanUser, hfind]
    exact ⟨_, rfl⟩
  · intro st adminId userId reason u hfind hban
    simp only [AdminServiceV1.unsuspendUser, hfind, hban]
    exact ⟨_, _, rfl, rfl⟩
  · intro st adminId now userId reason u hfind hsus
    simp only [AdminServiceV1.unbanUser, hfind, hsus]
    exact ⟨_, _, rfl, rfl⟩

/-- Witness for C4: the earlier revision re-enables the suspended and
login-disabled user carol on unsuspend. -/
theorem unsuspend_revisions_not_equivalent_witness :
    ∃ st2 v, AdminServiceV1.unsuspendUser carolState 9 3 "lift" =
      .ok (v, st2) ∧ v.isActive = true :=
  (unsuspend_revisions_not_equivalent).2.2.2.2.1 carolState 9 3 "lift"
    carolSuspended rfl rfl

theorem checkSelfModification_ok {adminId userId : Nat} (hne : adminId ≠ userId) :
    AdminService.checkSelfModification adminId userId = .ok () := by
  have hbeq : (adminId == userId) = false := by simpa using hne
  simp [AdminService.checkSelfModification, hbeq]

theorem checkLastAdmin_ok {st : AdminState} {userId : Nat} {u : User}
    (hfind : findById st.users userId = some u)
    (hguard : ¬(u.role = Role.ADMIN ∧ AdminService.adminCount st.users ≤ 1)) :
    AdminService.checkLastAdmin st.users userId = .ok () := by
  simp only [AdminService.checkLastAdmin, hfind]
  by_cases hr : u.role = Role.ADMIN
  · have hc : ¬ AdminService.adminCount st.users ≤ 1 := fun hc => hguard ⟨hr, hc⟩
    simp [hr, hc]
  · simp [hr]

/-- Store holding an admin and the soft-deleted user dave with timestamp d. -/
def deletedState (d : Int) : AdminState :=
  { users := [aliceAdmin, deletedUser d], auditLog := [] }

/-- C5: permanentDeleteUser on an existing soft-deleted user (distinct from
the actor, not last-admin-blocked) fails with InvalidState when isDeleted is
false, fails with TooSoon leaving the state unchanged when deletedAt is
strictly after now minus 30 days, and hard-removes the user when deletedAt is
at or before now minus 30 days, after which findById returns none. -/
theorem permanentDeleteUser_grace_period (st : AdminState) (adminId userId : Nat)
    (now d : Int) (reason : String) (u : User)
    (hne : adminId ≠ userId)
    (hfind : findById st.users userId = some u)
    (hguard : ¬(u.role = Role.ADMIN ∧ AdminService.adminCount st.users ≤ 1)) :
    (u.isDeleted = false →
      AdminService.permanentDeleteUser st adminId now userId reason =
        .error .invalidState ∧
      stateAfter (AdminService.permanentDeleteUser st adminId now userId reason) st
        = st) ∧
    (u.isDeleted = true → u.deletedAt = some d →
      (minusDays now 30 < d →
        AdminService.permanentDeleteUser st adminId now userId reason =
          .error .tooSoon ∧
        stateAfter (AdminService.permanentDeleteUser st adminId now userId reason) st
          = st) ∧
      (d ≤ minusDays now 30 →
        ∃ st2, AdminService.permanentDeleteUser st adminId now userId reason =
          .ok ((), st2) ∧ findById st2.users userId = none)) := by
  have hself := checkSelfModification_ok hne
  have hla := checkLastAdmin_ok hfind hguard
  refine ⟨?_, ?_⟩
  · intro hdel
    have he : AdminService.permanentDeleteUser st adminId now userId reason =
        .error .invalidState := by
      simp only [AdminService.permanentDeleteUser, hself, hla, hfind, hdel]
      rfl
    exact ⟨he, by rw [he]; rfl⟩
  · intro hdel hda
    refine ⟨?_, ?_⟩
    · intro hlt
      have hdec : decide (minusDays now 30 < d) = true := decide_eq_true hlt
      have he : AdminService.permanentDeleteUser st adminId now userId reason =
          .error .tooSoon := by
        simp only [AdminService.permanentDeleteUser, hself, hla, hfind, hdel, hda, hdec]
        rfl
      exact ⟨he, by rw [he]; rfl⟩
    · intro hle
      have hdec : decide (minusDays now 30 < d) = false :=
        decide_eq_false (not_lt.mpr hle)
      simp only [AdminService.permanentDeleteUser, hself, hla, hfind, hdel, hda, hdec]
      exact ⟨_, rfl, findById_deleteUser st.users (findById_id hfind)⟩

/-- Witness for C5: deleting dave (deletedAt = 0) 29 days later fails TooSoon,
31 days later succeeds and the record is gone. -/
theorem permanentDeleteUser_grace_period_witness :
    AdminService.permanentDeleteUser (deletedState 0) 1 2505600 4 "purge" =
      .error .tooSoon ∧
    ∃ st2, AdminService.permanentDeleteUser (deletedState 0) 1 2678400 4 "purge" =
      .ok ((), st2) ∧ findById st2.users 4 = none := by
  have h29 := permanentDeleteUser_grace_period (deletedState 0) 1 4 2505600 0
    "purge" (deletedUser 0) (by decide) rfl (by decide)
  have h31 := permanentDeleteUser_grace_period (deletedState 0) 1 4 2678400 0
    "purge" (deletedUser 0) (by decide) rfl (by decide)
  exact ⟨((h29.2 rfl rfl).1 (by decide)).1, (h31.2 rfl rfl).2 (by decide)⟩

/-- C10: on a user state with isDeleted true but deletedAt null, the 30-day
grace check is skipped and permanentDeleteUser removes the record at once;
softDeleteUser itself never produces such a state, since on success the saved
user always carries deletedAt = some now. -/
theorem permanentDeleteUser_null_deletedAt (st : AdminState) (adminId userId : Nat)
    (now : Int) (reason : String) (u : User)
    (hne : adminId ≠ userId)
    (hfind : findById st.users userId = some u)
    (hguard : ¬(u.role = Role.ADMIN ∧ AdminService.adminCount st.users ≤ 1))
    (hdel : u.isDeleted = true)
    (hda : u.deletedAt = none) :
    (∃ st2, AdminService.permanentDeleteUser st adminId now userId reason =
        .ok ((), st2) ∧ findById st2.users userId = none) ∧
    (∀ st1 adminId1 now1 userId1 reason1 w st21,
      AdminService.softDeleteUser st1 adminId1 now1 userId1 reason1 =
        .ok (w, st21) →
      w.deletedAt = some now1) := by
  constructor
  · have hself := checkSelfModification_ok hne
    have hla := checkLastAdmin_ok hfind hguard
    simp only [AdminService.permanentDeleteUser, hself, hla, hfind, hdel, hda]
    exact ⟨_, rfl, findById_deleteUser st.users (findById_id hfind)⟩
  · intro st1 adminId1 now1 userId1 reason1 w st21 h
    by_cases hc : adminId1 = userId1
    · have hb : (adminId1 == userId1) = true := by simpa using hc
      have hs : AdminService.checkSelfModification adminId1 userId1 =
          .error .selfModification := by
        simp [AdminService.checkSelfModification, hb]
      have he : AdminService.softDeleteUser st1 adminId1 now1 userId1 reason1 =
          .error .selfModification := by
        simp only [AdminService.softDeleteUser, hs]
        rfl
      rw [he] at h
      exact Except.noConfusion h
    · have hself := checkSelfModification_ok hc
      cases hf : findById st1.users userId1 with
      | none =>
          have hl : AdminService.checkLastAdmin st1.users userId1 =
              .error .notFound := by
            simp [AdminService.checkLastAdmin, hf]
          have he : AdminService.softDeleteUser st1 adminId1 now1 userId1 reason1 =
              .error .notFound := by
            simp only [AdminService.softDeleteUser, hself, hl, hf]
            rfl
          rw [he] at h
          exact Except.noConfusion h
      | some v =>
          cases hl : AdminService.checkLastAdmin st1.users userId1 with
          | error e =>
              have he : AdminService.softDeleteUser st1 adminId1 now1 userId1
                  reason1 = .error e := by
                simp only [AdminService.softDeleteUser, hself, hl]
                rfl
              rw [he] at h
              exact Except.noConfusion h
          | ok b =>
              have hok : ∃ stx,
                  AdminService.softDeleteUser st1 adminId1 now1 userId1 reason1 =
                    .ok ({ v with isDeleted := true, deletedAt := some now1,
                                  isActive := false }, stx) := by
                simp only [AdminService.softDeleteUser, hself, hl, hf]
                exact ⟨_, rfl⟩
              obtain ⟨stx, hx⟩ := hok
              rw [hx] at h
              simp only [Except.ok.injEq, Prod.mk.injEq] at h
              rw [← h.1]

/-- Witness for C10: a hand-made state with isDeleted true and deletedAt null
is removed immediately even though now is well inside any grace window. -/
theorem permanentDeleteUser_null_deletedAt_witness :
    ∃ st2, AdminService.permanentDeleteUser
        { users := [aliceAdmin, { deletedUser 0 with deletedAt := none }],
          auditLog := [] } 1 10 4 "purge" = .ok ((), st2) ∧
      findById st2.users 4 = none :=
  (permanentDeleteUser_null_deletedAt
    { users := [aliceAdmin, { deletedUser 0 with deletedAt := none }],
      auditLog := [] } 1 4 10 "purge" { deletedUser 0 with deletedAt := none }
    (by decide) rfl (by decide) rfl rfl).1

/-- State after admin 1 suspends user 42 until time 604800. -/
def bobSuspendedState : AdminState :=
  stateAfter (AdminService.suspendUser twoUserState 1 42 604800 "spam") twoUserState

/-- C8: enableLogin fails StillBanned when bannedAt is set, fails
StillSuspended when suspendedUntil is set and in the future, and otherwise
sets isActive to true; failures leave the state unchanged. -/
theorem enableLogin_guards (st : AdminState) (adminId : Nat) (now : Int)
    (userId : Nat) (reason : String) (u : User)
    (hfind : findById st.users userId = some u) :
    (u.isBanned = true →
      AdminService.enableLogin st adminId now userId reason =
        .error .stillBanned ∧
      stateAfter (AdminService.enableLogin st adminId now userId reason) st = st) ∧
    (u.isBanned = false → u.isSuspended now = true →
      AdminService.enableLogin st adminId now userId reason =
        .error .stillSuspended ∧
      stateAfter (AdminService.enableLogin st adminId now userId reason) st = st) ∧
    (u.isBanned = false → u.isSuspended now = false →
      ∃ st2, AdminService.enableLogin st adminId now userId reason =
        .ok ({ u with isActive := true }, st2)) := by
  refine ⟨?_, ?_, ?_⟩
  · intro hb
    have he : AdminService.enableLogin st adminId now userId reason =
        .error .stillBanned := by
      simp only [AdminService.enableLogin, hfind, hb]
      rfl
    exact ⟨he, by rw [he]; rfl⟩
  · intro hb hs
    have he : AdminService.enableLogin st adminId now userId reason =
        .error .stillSuspended := by
      simp only [AdminService.enableLogin, hfind, hb, hs]
      rfl
    exact ⟨he, by rw [he]; rfl⟩
  · intro hb hs
    simp only [AdminService.enableLogin, hfind, hb, hs]
    exact ⟨_, rfl⟩

/-- Witness for C8: suspend user 42 for a week, then enableLogin immediately
fails StillSuspended. -/
theorem enableLogin_guards_witness :
    AdminService.enableLogin bobSuspendedState 1 0 42 "reinstate" =
      .error .stillSuspended :=
  ((enableLogin_guards bobSuspendedState 1 0 42 "reinstate"
      { bobUser with suspendedUntil := some 604800,
                     suspensionReason := some "spam" }
      (by decide)).2.1 rfl rfl).1

/-- C9: restoreUser fails InvalidState on a non-deleted user; on a deleted
user it clears isDeleted and deletedAt, sets isActive true exactly when the
user is neither banned nor currently suspended (otherwise isActive is
unchanged), and an immediate second restoreUser fails InvalidState. -/
theorem restoreUser_spec (st : AdminState) (adminId : Nat) (now : Int)
    (userId : Nat) (reason : String) (u : User)
    (hfind : findById st.users userId = some u) :
    (u.isDeleted = false →
      AdminService.restoreUser st adminId now userId reason =
        .error .invalidState ∧
      stateAfter (AdminService.restoreUser st adminId now userId reason) st = st) ∧
    (u.isDeleted = true →
      ∃ st2,
        AdminService.restoreUser st adminId now userId reason =
          .ok ((if (!u.isBanned && !u.isSuspended now) = true
                then { u with isDeleted := false, deletedAt := none,
                              isActive := true }
                else { u with isDeleted := false, deletedAt := none }), st2) ∧
        findById st2.users userId =
          some (if (!u.isBanned && !u.isSuspended now) = true
                then { u with isDeleted := false, deletedAt := none,
                              isActive := true }
                else { u with isDeleted := false, deletedAt := none }) ∧
        ∀ now2 reason2, AdminService.restoreUser st2 adminId now2 userId reason2 =
          .error .invalidState) := by
  refine ⟨?_, ?_⟩
  · intro hdel
    have he : AdminService.restoreUser st adminId now userId reason =
        .error .invalidState := by
      simp only [AdminService.restoreUser, hfind, hdel]
      rfl
    exact ⟨he, by rw [he]; rfl⟩
  · intro hdel
    have key : ∃ st2, AdminService.restoreUser st adminId now userId reason =
        .ok ((if (!u.isBanned && !u.isSuspended now) = true
              then { u with isDeleted := false, deletedAt := none,
                            isActive := true }
              else { u with isDeleted := false, deletedAt := none }), st2) ∧
        st2.users = saveUser st.users
          (if (!u.isBanned && !u.isSuspended now) = true
           then { u with isDeleted := false, deletedAt := none,
                         isActive := true }
           else { u with isDeleted := false, deletedAt := none }) := by
      simp only [AdminService.restoreUser, hfind, hdel]
      exact ⟨_, rfl, rfl⟩
    obtain ⟨st2, h1, hu2⟩ := key
    have hid : (if (!u.isBanned && !u.isSuspended now) = true
        then { u with isDeleted := false, deletedAt := none, isActive := true }
        else { u with isDeleted := false, deletedAt := none }).id = u.id := by
      by_cases hcond : (!u.isBanned && !u.isSuspended now) = true
      · rw [if_pos hcond]
      · rw [if_neg hcond]
    have hfind2 : findById st2.users userId =
        some (if (!u.isBanned && !u.isSuspended now) = true
              then { u with isDeleted := false, deletedAt := none,
                            isActive := true }
              else { u with isDeleted := false, deletedAt := none }) := by
      rw [hu2]
      exact findById_saveUser hfind hid
    refine ⟨st2, h1, hfind2, ?_⟩
    intro now2 reason2
    have hdel2 : (if (!u.isBanned && !u.isSuspended now) = true
        then { u with isDeleted := false, deletedAt := none, isActive := true }
        else { u with isDeleted := false, deletedAt := none }).isDeleted = false := by
      by_cases hcond : (!u.isBanned && !u.isSuspended now) = true
      · rw [if_pos hcond]
      · rw [if_neg hcond]
    simp only [AdminService.restoreUser, hfind2, hdel2]
    rfl

/-- Witness for C9: restoring the soft-deleted dave re-enables login (he is
neither banned nor suspended) and a second restore fails InvalidState. -/
theorem restoreUser_spec_witness :
    ∃ st2 v, AdminService.restoreUser (deletedState 0) 1 5 4 "restore" =
        .ok (v, st2) ∧
      v.isActive = true ∧
      AdminService.restoreUser st2 1 99 4 "again" = .error .invalidState := by
  obtain ⟨st2, h1, hf2, h2⟩ :=
    (restoreUser_spec (deletedState 0) 1 5 4 "restore" (deletedUser 0) rfl).2 rfl
  exact ⟨st2, _, h1, rfl, h2 99 "again"⟩

/-- The audit-log effect of one operation: on success exactly the given entry
is appended, on failure (transaction rollback) nothing is. -/
def auditDelta {α : Type} (r : Except AdminError (α × AdminState))
    (st : AdminState) (entry : AdminAuditLog) : Prop :=
  (stateAfter r st).auditLog =
    st.auditLog ++ (match r with | .ok _ => [entry] | .error _ => [])

theorem auditDelta_suspend (st : AdminState) (adminId userId : Nat)
    (suspendedUntil : Int) (reason : String) :
    auditDelta (AdminService.suspendUser st adminId userId suspendedUntil reason) st
      { adminUserId := adminId, actionType := "SUSPEND", targetType := "USER",
        targetId := userId, reason := reason,
        metadata := some [("suspendedUntil", toString suspendedUntil)] } := by
  unfold auditDelta
  by_cases hc : adminId = userId
  · have hb : (adminId == userId) = true := by simpa using hc
    have hs : AdminService.checkSelfModification adminId userId =
        .error .selfModification := by
      simp [AdminService.checkSelfModification, hb]
    have he : AdminService.suspendUser st adminId userId suspendedUntil reason =
        .error .selfModification := by
      simp only [AdminService.suspendUser, hs]
      rfl
    rw [he]
    simp [stateAfter]
  · have hself := checkSelfModification_ok hc
    cases hf : findById st.users userId with
    | none =>
        have he : AdminService.suspendUser st adminId userId suspendedUntil reason =
            .error .notFound := by
          simp only [AdminService.suspendUser, hself, hf]
          rfl
        rw [he]
        simp [stateAfter]
    | some u =>
        have key : ∃ v st2,
            AdminService.suspendUser st adminId userId suspendedUntil reason =
              .ok (v, st2) ∧
            st2.auditLog = st.auditLog ++
              [{ adminUserId := adminId, actionType := "SUSPEND",
                 targetType := "USER", targetId := userId, reason := reason,
                 metadata := some [("suspendedUntil", toString suspendedUntil)] }] := by
          simp only [AdminService.suspendUser, hself, hf]
          exact ⟨_, _, rfl, rfl⟩
        obtain ⟨v, st2, hok, hlog⟩ := key
        rw [hok]
        exact hlog

theorem auditDelta_ban (st : AdminState) (adminId : Nat) (now : Int)
    (userId : Nat) (reason : String) :
    auditDelta (AdminService.banUser st adminId now userId reason) st
      { adminUserId := adminId, actionType := "BAN", targetType := "USER",
        targetId := userId, reason := reason, metadata := none } := by
  unfold auditDelta
  by_cases hc : adminId = userId
  · have hb : (adminId == userId) = true := by simpa using hc
    have hs : AdminService.checkSelfModification adminId userId =
        .error .selfModification := by
      simp [AdminService.checkSelfModification, hb]
    have he : AdminService.banUser st adminId now userId reason =
        .error .selfModification := by
      simp only [AdminService.banUser, hs]
      rfl
    rw [he]
    simp [stateAfter]
  · have hself := checkSelfModification_ok hc
    cases hl : AdminService.checkLastAdmin st.users userId with
    | error e =>
        have he : AdminService.banUser st adminId now userId reason = .error e := by
          simp only [AdminService.banUser, hself, hl]
          rfl
        rw [he]
        simp [stateAfter]
    | ok b =>
        cases hf : findById st.users userId with
        | none =>
            have he : AdminService.banUser st adminId now userId reason =
                .error .notFound := by
              simp only [AdminService.banUser, hself, hl, hf]
              rfl
            rw [he]
            simp [stateAfter]
        | some u =>
            have key : ∃ v st2,
                AdminService.banUser st adminId now userId reason = .ok (v, st2) ∧
                st2.auditLog = st.auditLog ++
                  [{ adminUserId := adminId, actionType := "BAN",
                     targetType := "USER", targetId := userId, reason := reason,
                     metadata := none }] := by
              simp only [AdminService.banUser, hself, hl, hf]
              exact ⟨_, _, rfl, rfl⟩
            obtain ⟨v, st2, hok, hlog⟩ := key
            rw [hok]
            exact hlog

theorem auditDelta_unsuspend (st : AdminState) (adminId userId : Nat)
    (reason : String) :
    auditDelta (AdminService.unsuspendUser st adminId userId reason) st
      { adminUserId := adminId, actionType := "UNSUSPEND", targetType := "USER",
        targetId := userId, reason := reason, metadata := none } := by
  unfold auditDelta
  cases hf : findById st.users userId with
  | none =>
      have he : AdminService.unsuspendUser st adminId userId reason =
          .error .notFound := by
        simp only [AdminService.unsuspendUser, hf]
      rw [he]
      simp [stateAfter]
  | some u =>
      have key : ∃ v st2,
          AdminService.unsuspendUser st adminId userId reason = .ok (v, st2) ∧
          st2.auditLog = st.auditLog ++
            [{ adminUserId := adminId, actionType := "UNSUSPEND",
               targetType := "USER", targetId := userId, reason := reason,
               metadata := none }] := by
        simp only [AdminService.unsuspendUser, hf]
        exact ⟨_, _, rfl, rfl⟩
      obtain ⟨v, st2, hok, hlog⟩ := key
      rw [hok]
      exact hlog

theorem auditDelta_unban (st : AdminState) (adminId userId : Nat)
    (reason : String) :
    auditDelta (AdminService.unbanUser st adminId userId reason) st
      { adminUserId := adminId, actionType := "UNBAN", targetType := "USER",
        targetId := userId, reason := reason, metadata := none } := by
  unfold auditDelta
  cases hf : findById st.users userId with
  | none =>
      have he : AdminService.unbanUser st adminId userId reason =
          .error .notFound := by
        simp only [AdminService.unbanUser, hf]
      rw [he]
      simp [stateAfter]
  | some u =>
      have key : ∃ v st2,
          AdminService.unbanUser st adminId userId reason = .ok (v, st2) ∧
          st2.auditLog = st.auditLog ++
            [{ adminUserId := adminId, actionType := "UNBAN",
               targetType := "USER", targetId := userId, reason := reason,
               metadata := none }] := by
        simp only [AdminService.unbanUser, hf]
        exact ⟨_, _, rfl, rfl⟩
      obtain ⟨v, st2, hok, hlog⟩ := key
      rw [hok]
      exact hlog

theorem auditDelta_softDelete (st : AdminState) (adminId : Nat) (now : Int)
    (userId : Nat) (reason : String) :
    auditDelta (AdminService.softDeleteUser st adminId now userId reason) st
      { adminUserId := adminId, actionType := "SOFT_DELETE", targetType := "USER",
        targetId := userId, reason := reason, metadata := none } := by
  unfold auditDelta
  by_cases hc : adminId = userId
  · have hb : (adminId == userId) = true := by simpa using hc
    have hs : AdminService.checkSelfModification adminId userId =
        .error .selfModification := by
      simp [AdminService.checkSelfModification, hb]
    have he : AdminService.softDeleteUser st adminId now userId reason =
        .error .selfModification := by
      simp only [AdminService.softDeleteUser, hs]
      rfl
    rw [he]
    simp [stateAfter]
  · have hself := checkSelfModification_ok hc
    cases hl : AdminService.checkLastAdmin st.users userId with
    | error e =>
        have he : AdminService.softDeleteUser st adminId now userId reason =
            .error e := by
          simp only [AdminService.softDeleteUser, hself, hl]
          rfl
        rw [he]
        simp [stateAfter]
    | ok b =>
        cases hf : findById st.users userId with
        | none =>
            have he : AdminService.softDeleteUser st adminId now userId reason =
                .error .notFound := by
              simp only [AdminService.softDeleteUser, hself, hl, hf]
              rfl
            rw [he]
            simp [stateAfter]
        | some u =>
            have key : ∃ v st2,
                AdminService.softDeleteUser st adminId now userId reason =
                  .ok (v, st2) ∧
                st2.auditLog = st.auditLog ++
                  [{ adminUserId := adminId, actionType := "SOFT_DELETE",
                     targetType := "USER", targetId := userId, reason := reason,
                     metadata := none }] := by
              simp only [AdminService.softDeleteUser, hself, hl, hf]
              exact ⟨_, _, rfl, rfl⟩
            obtain ⟨v, st2, hok, hlog⟩ := key
            rw [hok]
            exact hlog

theorem auditDelta_restore (st : AdminState) (adminId : Nat) (now : Int)
    (userId : Nat) (reason : String) :
    auditDelta (AdminService.restoreUser st adminId now userId reason) st
      { adminUserId := adminId, actionType := "RESTORE", targetType := "USER",
        targetId := userId, reason := reason, metadata := none } := by
  unfold auditDelta
  cases hf : findById st.users userId with
  | none =>
      have he : AdminService.restoreUser st adminId now userId reason =
          .error .notFound := by
        simp only [AdminService.restoreUser, hf]
      rw [he]
      simp [stateAfter]
  | some u =>
      cases hdel : u.isDeleted with
      | false =>
          have he : AdminService.restoreUser st adminId now userId reason =
              .error .invalidState := by
            simp only [AdminService.restoreUser, hf, hdel]
            rfl
          rw [he]
          simp [stateAfter]
      | true =>
          have key : ∃ v st2,
              AdminService.restoreUser st adminId now userId reason =
                .ok (v, st2) ∧
              st2.auditLog = st.auditLog ++
                [{ adminUserId := adminId, actionType := "RESTORE",
                   targetType := "USER", targetId := userId, reason := reason,
                   metadata := none }] := by
            simp only [AdminService.restoreUser, hf, hdel]
            exact ⟨_, _, rfl, rfl⟩
          obtain ⟨v, st2, hok, hlog⟩ := key
          rw [hok]
          exact hlog

theorem auditDelta_permanentDelete (st : AdminState) (adminId : Nat) (now : Int)
    (userId : Nat) (reason : String) :
    auditDelta (AdminService.permanentDeleteUser st adminId now userId reason) st
      { adminUserId := adminId, actionType := "PERMANENT_DELETE",
        targetType := "USER", targetId := userId, reason := reason,
        metadata := none } := by
  unfold auditDelta
  by_cases hc : adminId = userId
  · have hb : (adminId == userId) = true := by simpa using hc
    have hs : AdminService.checkSelfModification adminId userId =
        .error .selfModification := by
      simp [AdminService.checkSelfModification, hb]
    have he : AdminService.permanentDeleteUser st adminId now userId reason =
        .error .selfModification := by
      simp only [AdminService.permanentDeleteUser, hs]
      rfl
    rw [he]
    simp [stateAfter]
  · have hself := checkSelfModification_ok hc
    cases hl : AdminService.checkLastAdmin st.users userId with
    | error e =>
        have he : AdminService.permanentDeleteUser st adminId now userId reason =
            .error e := by
          simp only [AdminService.permanentDeleteUser, hself, hl]
          rfl
        rw [he]
        simp [stateAfter]
    | ok b =>
        cases hf : findById st.users userId with
        | none =>
            have he : AdminService.permanentDeleteUser st adminId now userId
                reason = .error .notFound := by
              simp only [AdminService.permanentDeleteUser, hself, hl, hf]
              rfl
            rw [he]
            simp [stateAfter]
        | some u =>
            cases hdel : u.isDeleted with
            | false =>
                have he : AdminService.permanentDeleteUser st adminId now userId
                    reason = .error .invalidState := by
                  simp only [AdminService.permanentDeleteUser, hself, hl, hf, hdel]
                  rfl
                rw [he]
                simp [stateAfter]
            | true =>
                cases hd : u.deletedAt with
                | none =>
                    have key : ∃ st2,
                        AdminService.permanentDeleteUser st adminId now userId
                          reason = .ok ((), st2) ∧
                        st2.auditLog = st.auditLog ++
                          [{ adminUserId := adminId,
                             actionType := "PERMANENT_DELETE",
                             targetType := "USER", targetId := userId,
                             reason := reason, metadata := none }] := by
                      simp only [AdminService.permanentDeleteUser, hself, hl, hf,
                        hdel, hd]
                      exact ⟨_, rfl, rfl⟩
                    obtain ⟨st2, hok, hlog⟩ := key
                    rw [hok]
                    exact hlog
                | some d =>
                    by_cases hlt : minusDays now 30 < d
                    · have hdec : decide (minusDays now 30 < d) = true :=
                        decide_eq_true hlt
                      have he : AdminService.permanentDeleteUser st adminId now
                          userId reason = .error .tooSoon := by
                        simp only [AdminService.permanentDeleteUser, hself, hl,
                          hf, hdel, hd, hdec]
                        rfl
                      rw [he]
                      simp [stateAfter]
                    · have hdec : decide (minusDays now 30 < d) = false :=
                        decide_eq_false hlt
                      have key : ∃ st2,
                          AdminService.permanentDeleteUser st adminId now userId
                            reason = .ok ((), st2) ∧
                          st2.auditLog = st.auditLog ++
                            [{ adminUserId := adminId,
                               actionType := "PERMANENT_DELETE",
                               targetType := "USER", targetId := userId,
                               reason := reason, metadata := none }] := by
                        simp only [AdminService.permanentDeleteUser, hself, hl,
                          hf, hdel, hd, hdec]
                        exact ⟨_, rfl, rfl⟩
                      obtain ⟨st2, hok, hlog⟩ := key
                      rw [hok]
                      exact hlog

theorem auditDelta_disableLogin (st : AdminState) (adminId userId : Nat)
    (reason : String) :
    auditDelta (AdminService.disableLogin st adminId userId reason) st
      { adminUserId := adminId, actionType := "DISABLE_LOGIN",
        targetType := "USER", targetId := userId, reason := reason,
        metadata := none } := by
  unfold auditDelta
  by_cases hc : adminId = userId
  · have hb : (adminId == userId) = true := by simpa using hc
    have hs : AdminService.checkSelfModification adminId userId =
        .error .selfModification := by
      simp [AdminService.checkSelfModification, hb]
    have he : AdminService.disableLogin st adminId userId reason =
        .error .selfModification := by
      simp only [AdminService.disableLogin, hs]
      rfl
    rw [he]
    simp [stateAfter]
  · have hself := checkSelfModification_ok hc
    cases hf : findById st.users userId with
    | none =>
        have he : AdminService.disableLogin st adminId userId reason =
            .error .notFound := by
          simp only [AdminService.disableLogin, hself, hf]
          rfl
        rw [he]
        simp [stateAfter]
    | some u =>
        have key : ∃ v st2,
            AdminService.disableLogin st adminId userId reason = .ok (v, st2) ∧
            st2.auditLog = st.auditLog ++
              [{ adminUserId := adminId, actionType := "DISABLE_LOGIN",
                 targetType := "USER", targetId := userId, reason := reason,
                 metadata := none }] := by
          simp only [AdminService.disableLogin, hself, hf]
          exact ⟨_, _, rfl, rfl⟩
        obtain ⟨v, st2, hok, hlog⟩ := key
        rw [hok]
        exact hlog

theorem auditDelta_enableLogin (st : AdminState) (adminId : Nat) (now : Int)
    (userId : Nat) (reason : String) :
    auditDelta (AdminService.enableLogin st adminId now userId reason) st
      { adminUserId := adminId, actionType := "ENABLE_LOGIN",
        targetType := "USER", targetId := userId, reason := reason,
        metadata := none } := by
  unfold auditDelta
  cases hf : findById st.users userId with
  | none =>
      have he : AdminService.enableLogin st adminId now userId reason =
          .error .notFound := by
        simp only [AdminService.enableLogin, hf]
      rw [he]
      simp [stateAfter]
  | some u =>
      cases hb : u.isBanned with
      | true =>
          have he : AdminService.enableLogin st adminId now userId reason =
              .error .stillBanned := by
            simp only [AdminService.enableLogin, hf, hb]
            rfl
          rw [he]
          simp [stateAfter]
      | false =>
          cases hs : u.isSuspended now with
          | true =>
              have he : AdminService.enableLogin st adminId now userId reason =
                  .error .stillSuspended := by
                simp only [AdminService.enableLogin, hf, hb, hs]
                rfl
              rw [he]
              simp [stateAfter]
          | false =>
              have key : ∃ v st2,
                  AdminService.enableLogin st adminId now userId reason =
                    .ok (v, st2) ∧
                  st2.auditLog = st.auditLog ++
                    [{ adminUserId := adminId, actionType := "ENABLE_LOGIN",
                       targetType := "USER", targetId := userId,
                       reason := reason, metadata := none }] := by
                simp only [AdminService.enableLogin, hf, hb, hs]
                exact ⟨_, _, rfl, rfl⟩
              obtain ⟨v, st2, hok, hlog⟩ := key
              rw [hok]
              exact hlog

theorem auditDelta_roleChange (st : AdminState) (adminId userId : Nat)
    (newRole : Role) (reason : String) (u : User)
    (hfind : findById st.users userId = some u) :
    auditDelta (AdminService.updateUserRole st adminId userId newRole reason) st
      { adminUserId := adminId, actionType := "ROLE_CHANGE", targetType := "USER",
        targetId := userId, reason := reason,
        metadata := some [("oldRole", u.role.name), ("newRole", newRole.name)] } := by
  unfold auditDelta
  by_cases hsd : (adminId == userId && u.role = Role.ADMIN
      && newRole ≠ Role.ADMIN) = true
  · have he : AdminService.updateUserRole st adminId userId newRole reason =
        .error .selfDemotion := by
      simp only [AdminService.updateUserRole, hfind, hsd]
      rfl
    rw [he]
    simp [stateAfter]
  · have hsd2 : (adminId == userId && u.role = Role.ADMIN
        && newRole ≠ Role.ADMIN) = false := by simpa using hsd
    by_cases hmv : (u.role = Role.ADMIN && newRole ≠ Role.ADMIN) = true
    · cases hl : AdminService.checkLastAdmin st.users userId with
      | error e =>
          have he : AdminService.updateUserRole st adminId userId newRole reason =
              .error e := by
            simp only [AdminService.updateUserRole, hfind, hsd2, hmv, hl]
            rfl
          rw [he]
          simp [stateAfter]
      | ok b =>
          have key : ∃ v st2,
              AdminService.updateUserRole st adminId userId newRole reason =
                .ok (v, st2) ∧
              st2.auditLog = st.auditLog ++
                [{ adminUserId := adminId, actionType := "ROLE_CHANGE",
                   targetType := "USER", targetId := userId, reason := reason,
                   metadata := some [("oldRole", u.role.name),
                     ("newRole", newRole.name)] }] := by
            simp only [AdminService.updateUserRole, hfind, hsd2, hmv, hl]
            exact ⟨_, _, rfl, rfl⟩
          obtain ⟨v, st2, hok, hlog⟩ := key
          rw [hok]
          exact hlog
    · have hmv2 : (u.role = Role.ADMIN && newRole ≠ Role.ADMIN) = false := by
        simpa using hmv
      have key : ∃ v st2,
          AdminService.updateUserRole st adminId userId newRole reason =
            .ok (v, st2) ∧
          st2.auditLog = st.auditLog ++
            [{ adminUserId := adminId, actionType := "ROLE_CHANGE",
               targetType := "USER", targetId := userId, reason := reason,
               metadata := some [("oldRole", u.role.name),
                 ("newRole", newRole.name)] }] := by
        simp only [AdminService.updateUserRole, hfind, hsd2, hmv2]
        exact ⟨_, _, rfl, rfl⟩
      obtain ⟨v, st2, hok, hlog⟩ := key
      rw [hok]
      exact hlog

theorem auditDelta_roleChange_notFound (st : AdminState) (adminId userId : Nat)
    (newRole : Role) (reason : String)
    (hfind : findById st.users userId = none) :
    (stateAfter (AdminService.updateUserRole st adminId userId newRole reason)
      st).auditLog = st.auditLog := by
  have he : AdminService.updateUserRole st adminId userId newRole reason =
      .error .notFound := by
    simp only [AdminService.updateUserRole, hfind]
  rw [he]
  rfl

/-- C7: every successful moderation operation appends exactly one audit entry
whose targetId is the operation's target and whose actionType names the
operation (SUSPEND, BAN, UNSUSPEND, UNBAN, SOFT_DELETE, RESTORE,
PERMANENT_DELETE, ROLE_CHANGE, DISABLE_LOGIN, ENABLE_LOGIN); every failed
operation appends zero entries (the transaction rolls back). -/
theorem audit_exactly_one_entry (st : AdminState) (adminId userId : Nat)
    (now suspendedUntil : Int) (reason : String) (newRole : Role) :
    auditDelta (AdminService.suspendUser st adminId userId suspendedUntil reason) st
      { adminUserId := adminId, actionType := "SUSPEND", targetType := "USER",
        targetId := userId, reason := reason,
        metadata := some [("suspendedUntil", toString suspendedUntil)] } ∧
    auditDelta (AdminService.banUser st adminId now userId reason) st
      { adminUserId := adminId, actionType := "BAN", targetType := "USER",
        targetId := userId, reason := reason, metadata := none } ∧
    auditDelta (AdminService.unsuspendUser st adminId userId reason) st
      { adminUserId := adminId, actionType := "UNSUSPEND", targetType := "USER",
        targetId := userId, reason := reason, metadata := none } ∧
    auditDelta (AdminService.unbanUser st adminId userId reason) st
      { adminUserId := adminId, actionType := "UNBAN", targetType := "USER",
        targetId := userId, reason := reason, metadata := none } ∧
    auditDelta (AdminService.softDeleteUser st adminId now userId reason) st
      { adminUserId := adminId, actionType := "SOFT_DELETE", targetType := "USER",
        targetId := userId, reason := reason, metadata := none } ∧
    auditDelta (AdminService.restoreUser st adminId now userId reason) st
      { adminUserId := adminId, actionType := "RESTORE", targetType := "USER",
        targetId := userId, reason := reason, metadata := none } ∧
    auditDelta (AdminService.permanentDeleteUser st adminId now userId reason) st
      { adminUserId := adminId, actionType := "PERMANENT_DELETE",
        targetType := "USER", targetId := userId, reason := reason,
        metadata := none } ∧
    auditDelta (AdminService.disableLogin st adminId userId reason) st
      { adminUserId := adminId, actionType := "DISABLE_LOGIN",
        targetType := "USER", targetId := userId, reason := reason,
        metadata := none } ∧
    auditDelta (AdminService.enableLogin st adminId now userId reason) st
      { adminUserId := adminId, actionType := "ENABLE_LOGIN",
        targetType := "USER", targetId := userId, reason := reason,
        metadata := none } ∧
    (∀ u, findById st.users userId = some u →
      auditDelta (AdminService.updateUserRole st adminId userId newRole reason) st
        { adminUserId := adminId, actionType := "ROLE_CHANGE",
          targetType := "USER", targetId := userId, reason := reason,
          metadata := some [("oldRole", u.role.name),
            ("newRole", newRole.name)] }) ∧
    (findById st.users userId = none →
      (stateAfter (AdminService.updateUserRole st adminId userId newRole reason)
        st).auditLog = st.auditLog) :=
  ⟨auditDelta_suspend st adminId userId suspendedUntil reason,
   auditDelta_ban st adminId now userId reason,
   auditDelta_unsuspend st adminId userId reason,
   auditDelta_unban st adminId userId reason,
   auditDelta_softDelete st adminId now userId reason,
   auditDelta_restore st adminId now userId reason,
   auditDelta_permanentDelete st adminId now userId reason,
   auditDelta_disableLogin st adminId userId reason,
   auditDelta_enableLogin st adminId now userId reason,
   fun u hfind => auditDelta_roleChange st adminId userId newRole reason u hfind,
   fun hfind => auditDelta_roleChange_notFound st adminId userId newRole reason hfind⟩

/-- Witness for C7: banning user 42 appends one BAN entry for target 42, and
promoting user 42 appends one ROLE_CHANGE entry with old/new role metadata. -/
theorem audit_exactly_one_entry_witness :
    auditDelta (AdminService.banUser twoUserState 1 7 42 "abuse") twoUserState
      { adminUserId := 1, actionType := "BAN", targetType := "USER",
        targetId := 42, reason := "abuse", metadata := none } ∧
    auditDelta (AdminService.updateUserRole twoUserState 1 42 Role.EXPERT
        "promote") twoUserState
      { adminUserId := 1, actionType := "ROLE_CHANGE", targetType := "USER",
        targetId := 42, reason := "promote",
        metadata := some [("oldRole", "USER"), ("newRole", "EXPERT")] } := by
  have h1 := audit_exactly_one_entry twoUserState 1 42 7 0 "abuse" Role.EXPERT
  have h2 := audit_exactly_one_entry twoUserState 1 42 7 0 "promote" Role.EXPERT
  exact ⟨h1.2.1, h2.2.2.2.2.2.2.2.2.2.1 bobUser rfl⟩
